import Mathlib

/-!
Shallow embedding of `src/lib/services/LoggerService.ts` (class `LoggerService`).

The TypeScript class has three parts:
* `init` — one-shot backend configuration guarded by the `initialized` flag
  (modelled by `initRun`; the flag field is written `inited` here);
* `getCallerLocation` — caller-location resolution with stack-frame
  normalization (modelled by `getCallerLocation`, `normalizeFileName` and
  friends; the stack-trace provider `StackTrace.get` is an explicit
  `Except Unit (List StackFrame)` argument, and the number of times it is
  consulted is recorded in `ResolveResult.stackCalls`);
* `log` — the dispatcher writing one console line and submitting one record
  to the backend (modelled by `logRun`; the fallible `invoke` channel is an
  explicit `Except String Unit` argument, and `logRun` returns in the
  `Except String` monad so that "never propagates an exception" is the
  provable statement `logRun … = .ok _`).

String manipulation is done on `List Char` (`String.data`) so that every
definition evaluates by `decide` / `rfl` on concrete inputs.
-/

/-- One stack frame as consumed from `stacktrace-js`: `fileName` and
`lineNumber` are both optional at runtime.  JavaScript falsiness of the
empty string and of the line number `0` is modelled explicitly where the
source uses `||`. -/
structure StackFrame where
  fileName : Option String
  lineNumber : Option Nat
deriving Repr, DecidableEq

/-- The alternation of the project-directory regex
`/.*[\/\\]((?:app|src|components|lib|hooks|constants|types)[\/\\].*)/`. -/
def knownDirs : List String := ["app", "src", "components", "lib", "hooks", "constants", "types"]

/-- The character class `[\/\\]` of the regex. -/
def isSep (c : Char) : Bool := c = '/' || c = '\\'

/-- `listStartsWith p s` is true when `p` is an initial segment of `s`
(char-list form of anchored-at-start regex matching). -/
def listStartsWith (p s : List Char) : Bool := decide (s.take p.length = p)

/-- `.replace(/^P/, "")` for a literal pattern `P`: drop `p` from the front
of `s` when it starts with it, otherwise leave `s` unchanged. -/
def stripStart (p s : String) : String :=
  if listStartsWith p.data s.data then String.mk (s.data.drop p.data.length) else s

/-- True when the char list starts with one of `knownDirs` immediately
followed by a separator — the shape `(?:app|…|types)[\/\\]` of the group in
the project-directory regex (`.*` after the separator may be empty). -/
def startsWithKnownDir (cs : List Char) : Bool :=
  knownDirs.any fun d =>
    listStartsWith d.data cs &&
      (match cs.drop d.data.length with
       | c :: _ => isSep c
       | [] => false)

/-- The group captured by `/.*[\/\\](dir[\/\\].*)/` with greedy `.*`: the
suffix starting at the RIGHTMOST position that is preceded by a separator
and begins with a known directory name followed by a separator; `none` when
the regex does not match.  The recursion prefers a match found deeper in the
list, which is exactly the greedy-backtracking behaviour of the JavaScript
regex engine. -/
def lastProjMatch : List Char → Option (List Char)
  | [] => none
  | c :: rest =>
    match lastProjMatch rest with
    | some r => some r
    | none => if isSep c && startsWithKnownDir rest then some rest else none

/-- Chars after the first `"://"` of the char list (`none` when there is no
scheme separator, in which case `new URL` throws and the enclosing
`try { } catch {}` leaves the file name unchanged). -/
def afterScheme : List Char → Option (List Char)
  | [] => none
  | c :: rest =>
    if c = ':' ∧ rest.take 2 = ['/', '/'] then some (rest.drop 2)
    else afterScheme rest

/-- Path component of what follows the authority: everything from the first
`'/'` up to a query or fragment delimiter; `"/"` when the URL has no path. -/
def pathFrom (cs : List Char) : List Char :=
  match cs.dropWhile (fun c => c ≠ '/') with
  | [] => ['/']
  | path => path.takeWhile (fun c => c ≠ '?' && c ≠ '#')

/-- `new URL(s).pathname` for the HTTP(S) strings the source feeds it. -/
def urlPathname (s : String) : Option String :=
  match afterScheme s.data with
  | none => none
  | some rest => some (String.mk (pathFrom rest))

/-- The ordered rewrite sequence of `getCallerLocation` applied to a frame's
file name: strip `webpack-internal:///./`, then `webpack-internal:///`, then
`file://`; if the remainder starts with `http`, replace it by its URL path
with the `/_next/static/chunks/` static-asset prefix stripped; finally keep
only the project-relative suffix when the project-directory regex matches. -/
def normalizeFileName (f0 : String) : String :=
  let f1 := stripStart "webpack-internal:///./" f0
  let f2 := stripStart "webpack-internal:///" f1
  let f3 := stripStart "file://" f2
  let f4 :=
    if listStartsWith "http".data f3.data then
      match urlPathname f3 with
      | some p => stripStart "/_next/static/chunks/" p
      | none => f3
    else f3
  match lastProjMatch f4.data with
  | some suffix => String.mk suffix
  | none => f4

/-- Char-list uppercase, modelling JavaScript `level.toUpperCase()` on the
ASCII level tags the source uses. -/
def toUpperString (s : String) : String := String.mk (s.data.map Char.toUpper)

/-- `n || "?"`: the line-number part of the composed location; `0` is falsy
in JavaScript, so it also yields `"?"`. -/
def lineString : Option Nat → String
  | some n => if n = 0 then "?" else toString n
  | none => "?"

/-- `callerFrame.fileName || "unknown"` then normalization, composed with
the line part as `"<file>:<line>"` — the body of the `if (callerFrame)`
branch of `getCallerLocation`. -/
def frameLocation (fr : StackFrame) : String :=
  let f0 := match fr.fileName with
    | some s => if s = "" then "unknown" else s
    | none => "unknown"
  normalizeFileName f0 ++ ":" ++ lineString fr.lineNumber

/-- JavaScript truthiness of the optional `from` argument: `undefined` and
`""` are falsy. -/
def isTruthy : Option String → Bool
  | some s => s != ""
  | none => false

/-- `from || "unknown"` — the final fallback of `getCallerLocation`. -/
def fallbackLabel : Option String → String
  | some s => if s = "" then "unknown" else s
  | none => "unknown"

/-- Result of the resolver together with the number of times the stack-trace
provider was invoked on that path (the spec's call counter on the
introspection provider). -/
structure ResolveResult where
  location : String
  stackCalls : Nat
deriving Repr, DecidableEq

/-- `getCallerLocation(from?)`.  `isDev` is `process.env.NODE_ENV ===
"development"`; `stack` is the outcome of `StackTrace.get()` (`.error` when
it throws); the `try`/`catch` around introspection and the fall-through to
`from || "unknown"` are rendered by the `match`, so the function is total:
no exception escapes.  In the production short-circuit branch the source
returns `from` itself; there `from` is truthy, so `fallbackLabel fromArg`
is that same label. -/
def getCallerLocation (isDev : Bool) (fromArg : Option String)
    (stack : Except Unit (List StackFrame)) : ResolveResult :=
  if !isDev && isTruthy fromArg then
    { location := fallbackLabel fromArg, stackCalls := 0 }
  else if isDev then
    match stack with
    | .error _ => { location := fallbackLabel fromArg, stackCalls := 1 }
    | .ok frames =>
      match frames[3]? with
      | some fr => { location := frameLocation fr, stackCalls := 1 }
      | none => { location := fallbackLabel fromArg, stackCalls := 1 }
  else
    { location := fallbackLabel fromArg, stackCalls := 0 }

/-- The console channels bound in `console_map`, plus the implicit default
`console.log`. -/
inductive Channel where
  | log | info | warn | error | debug | trace
deriving Repr, DecidableEq

/-- `console_map[level] || console.log.bind(console)`: the object literal
keyed by `log`, `info`, `warn`, `error`, `debug`, `trace`, with `console.log`
as the fallback for any other string. -/
def consoleMap (level : String) : Channel :=
  if level = "log" then .log
  else if level = "info" then .info
  else if level = "warn" then .warn
  else if level = "error" then .error
  else if level = "debug" then .debug
  else if level = "trace" then .trace
  else .log

/-- `const prefix = from ? `[${from}]` : ""` — the bracketed label segment,
empty for an absent or empty label. -/
def labelSegment : Option String → String
  | some s => if s = "" then "" else "[" ++ s ++ "]"
  | none => ""

/-- The emitted console line `` `[${level.toUpperCase()}] ${prefix} ${message}` ``. -/
def consoleLine (level message : String) (fromArg : Option String) : String :=
  "[" ++ toUpperString level ++ "] " ++ labelSegment fromArg ++ " " ++ message

/-- Observable outcome of one `log` call: the console lines written (channel
and text, in order), the record handed to `log_frontend_message`, and
whether the backend accepted it (`delivered = false` means the record was
dropped — there is no retry or buffer in the source). -/
structure LogOutcome where
  consoleLines : List (Channel × String)
  record : String × String × String
  delivered : Bool
deriving Repr, DecidableEq

/-- The dispatcher `log(level, message, from?)`.  The backend `invoke` is
the `backend` argument (`.error` when the channel or the backend fails); the
source wraps it in `try`/`catch` and `console.error`s the failure, which is
the `.error` branch here.  The return type `Except String LogOutcome` makes
exception propagation expressible: the theorems show the result is always
`.ok`. -/
def logRun (isDev : Bool) (level message : String) (fromArg : Option String)
    (stack : Except Unit (List StackFrame)) (backend : Except String Unit) :
    Except String LogOutcome :=
  let res := getCallerLocation isDev fromArg stack
  let line := consoleLine level message fromArg
  let ch := consoleMap level
  match backend with
  | .ok _ =>
    .ok { consoleLines := [(ch, line)],
          record := (level, message, res.location),
          delivered := true }
  | .error e =>
    .ok { consoleLines := [(ch, line), (Channel.error, "Failed to send log to backend: " ++ e)],
          record := (level, message, res.location),
          delivered := false }

/-- Internal camelCase settings record (`LOGGER_SETTINGS`). -/
structure LogSettings where
  logPath : Option String
  logType : String
  maxFileSize : Nat
  consoleLevel : String
  fileLevel : String
deriving Repr, DecidableEq

/-- The snake_case object handed to `init_logger_cmd`. -/
structure BackendSettings where
  log_path : Option String
  log_type : String
  max_file_size : Nat
  console_level : String
  file_level : String
deriving Repr, DecidableEq

/-- The settings-mapping block of `init`: each field renamed to snake_case
and passed through; `LOGGER_SETTINGS.logPath || null` substitutes `null` for
an absent (or, by JavaScript falsiness, empty) path. -/
def toBackendSettings (s : LogSettings) : BackendSettings :=
  { log_path := match s.logPath with
      | some p => if p = "" then none else some p
      | none => none
    log_type := s.logType
    max_file_size := s.maxFileSize
    console_level := s.consoleLevel
    file_level := s.fileLevel }

/-- Observable outcome of one run of `init`: the flag afterwards (`inited`
models the source's one-shot flag), how many times `init_logger_cmd` was
invoked, and whether the success / failure console lines were emitted. -/
structure InitOutcome where
  inited : Bool
  backendCalls : Nat
  successLog : Bool
  errorLog : Bool
deriving Repr, DecidableEq

/-- `init()`.  `inited` is the flag on entry, `hasWindow` is
`typeof window !== "undefined"`, and `backend` is the outcome of
`invoke("init_logger_cmd", …)`.  The guard returns early when the flag is
already set or there is no window; otherwise the flag is set and the success
line printed exactly when the backend call succeeds, and on failure the
error is logged and the flag left false. -/
def initRun (inited : Bool) (hasWindow : Bool) (backend : Except String Unit) : InitOutcome :=
  if inited then
    { inited := true, backendCalls := 0, successLog := false, errorLog := false }
  else if !hasWindow then
    { inited := false, backendCalls := 0, successLog := false, errorLog := false }
  else
    match backend with
    | .ok _ => { inited := true, backendCalls := 1, successLog := true, errorLog := false }
    | .error _ => { inited := false, backendCalls := 1, successLog := false, errorLog := true }

/-- C1 counterexample: the rewrite sequence applied to
`file:///home/user/project/src/hooks/useAuth.ts` does NOT yield
`src/hooks/useAuth.ts` — the project-directory regex is greedy, so the
captured group starts at the rightmost known directory (`hooks`), not at
`src`. -/
theorem normalize_file_url_counterexample :
    normalizeFileName "file:///home/user/project/src/hooks/useAuth.ts" ≠ "src/hooks/useAuth.ts" := by
  decide

/-- C1 amended: normalizing the frame file reference
`file:///home/user/project/src/hooks/useAuth.ts` strips `file://` and then
keeps the suffix starting at the RIGHTMOST matching known directory, giving
`hooks/useAuth.ts`. -/
theorem normalize_file_url_amended :
    normalizeFileName "file:///home/user/project/src/hooks/useAuth.ts" = "hooks/useAuth.ts" := by
  decide

/-- C2: in production mode (`isDev = false`) with a non-empty explicit
label, the resolver returns the label verbatim and never consults the
stack-trace provider (`stackCalls = 0`), for every provider outcome. -/
theorem prod_label_short_circuit (s : String) (stack : Except Unit (List StackFrame))
    (h : s ≠ "") :
    getCallerLocation false (some s) stack = { location := s, stackCalls := 0 } := by
  simp [getCallerLocation, isTruthy, fallbackLabel, h, bne_iff_ne]

/-- Witness for `prod_label_short_circuit` at the spec's example label. -/
theorem prod_label_short_circuit_witness :
    getCallerLocation false (some "foo.ts:12") (Except.error ()) =
      { location := "foo.ts:12", stackCalls := 0 } :=
  prod_label_short_circuit "foo.ts:12" (Except.error ()) (by decide)

/-- C3: whenever stack introspection throws (`stack = .error`) or the frame
sequence has no frame at the fixed caller depth 3 (`length ≤ 3`), the
resolver returns the explicit label when a (non-empty, i.e. truthy) one was
supplied and `"unknown"` when none was; `getCallerLocation` is a total
function, so no exception propagates on any path. -/
theorem resolver_fallback (isDev : Bool) (fromArg : Option String)
    (stack : Except Unit (List StackFrame))
    (h : stack = Except.error () ∨ ∃ fs, stack = Except.ok fs ∧ fs.length ≤ 3) :
    (∀ s, fromArg = some s → s ≠ "" →
      (getCallerLocation isDev fromArg stack).location = s) ∧
    (fromArg = none → (getCallerLocation isDev fromArg stack).location = "unknown") := by
  have h3 : ∀ fs : List StackFrame, stack = Except.ok fs → fs[3]? = none := by
    rcases h with h | ⟨fs, rfl, hlen⟩
    · intro fs hfs; rw [h] at hfs; cases hfs
    · intro fs' hfs'
      injection hfs' with he
      subst he
      exact List.getElem?_eq_none hlen
  constructor
  · intro s hs hne
    subst hs
    rcases stack with e | fs
    · cases isDev <;> simp [getCallerLocation, isTruthy, fallbackLabel, hne, bne_iff_ne]
    · have := h3 fs rfl
      cases isDev <;> simp [getCallerLocation, isTruthy, fallbackLabel, hne, bne_iff_ne, this]
  · intro hn
    subst hn
    rcases stack with e | fs
    · cases isDev <;> simp [getCallerLocation, isTruthy, fallbackLabel]
    · have := h3 fs rfl
      cases isDev <;> simp [getCallerLocation, isTruthy, fallbackLabel, this]

/-- Witness for `resolver_fallback`: failing introspection in development
mode with the spec's two example labels. -/
theorem resolver_fallback_witness :
    (getCallerLocation true (some "foo.ts:12") (Except.error ())).location = "foo.ts:12" ∧
    (getCallerLocation true none (Except.error ())).location = "unknown" :=
  ⟨(resolver_fallback true (some "foo.ts:12") (Except.error ()) (Or.inl rfl)).1
      "foo.ts:12" rfl (by decide),
   (resolver_fallback true none (Except.error ()) (Or.inl rfl)).2 rfl⟩

/-- C4: `log` always completes with `.ok` (no exception reaches the
caller), and when backend submission fails the failure is reported as one
extra `console.error` line and the record is not delivered — the console
lines are exactly the main line plus that error report, with no retry and
no buffering. -/
theorem log_never_raises (isDev : Bool) (level message : String) (fromArg : Option String)
    (stack : Except Unit (List StackFrame)) (backend : Except String Unit) :
    ∃ o, logRun isDev level message fromArg stack backend = Except.ok o ∧
      (∀ e, backend = Except.error e →
        o.delivered = false ∧
        o.consoleLines =
          [(consoleMap level, consoleLine level message fromArg),
           (Channel.error, "Failed to send log to backend: " ++ e)]) := by
  cases backend with
  | ok u =>
    refine ⟨_, rfl, fun e he => ?_⟩
    cases he
  | error e =>
    refine ⟨_, rfl, fun e' he' => ?_⟩
    injection he' with h
    subst h
    exact ⟨rfl, rfl⟩

/-- Witness for `log_never_raises`: a failing backend in development mode
with failing introspection still yields an `.ok` outcome with the record
dropped. -/
theorem log_never_raises_witness :
    ∃ o, logRun true "info" "Saved" none (Except.error ()) (Except.error "boom") = Except.ok o ∧
      o.delivered = false := by
  obtain ⟨o, h1, h2⟩ := log_never_raises true "info" "Saved" none (Except.error ()) (Except.error "boom")
  exact ⟨o, h1, (h2 "boom" rfl).1⟩

/-- C5: the initialization flag is set only by a successful backend
configuration call and is never reset: when the flag is already true the
run is a complete no-op (no backend call, no success line, no error line,
flag stays true); the flag is true afterwards exactly when it was already
true or the configuration call ran and succeeded; and on a failing call
from an uninitialized state the flag remains false. -/
theorem init_flag_invariant (inited hasWindow : Bool) (backend : Except String Unit) :
    (inited = true →
      initRun inited hasWindow backend =
        { inited := true, backendCalls := 0, successLog := false, errorLog := false }) ∧
    ((initRun inited hasWindow backend).inited = true ↔
      (inited = true ∨ (hasWindow = true ∧ backend = Except.ok ()))) ∧
    (∀ e, backend = Except.error e → inited = false →
      (initRun inited hasWindow backend).inited = false) := by
  cases inited <;> cases hasWindow <;>
    rcases backend with u | e <;> first | (cases u; simp [initRun]) | simp [initRun]

/-- Witness for `init_flag_invariant`: a second run after success is a
no-op even when the backend would now fail, and a failing first run leaves
the flag false. -/
theorem init_flag_invariant_witness :
    initRun true true (Except.error "down") =
      { inited := true, backendCalls := 0, successLog := false, errorLog := false } ∧
    (initRun false true (Except.error "down")).inited = false :=
  ⟨(init_flag_invariant true true (Except.error "down")).1 rfl,
   (init_flag_invariant false true (Except.error "down")).2.2 "down" rfl rfl⟩

/-- C6: the normalization table — the webpack-internal reference keeps its
project-relative tail, the Next.js chunk URL is reduced to its path with
the static-asset prefix stripped, and the CDN URL with no known directory
stays its absolute-derived path. -/
theorem normalization_examples :
    normalizeFileName "webpack-internal:///./components/Button.tsx" = "components/Button.tsx" ∧
    normalizeFileName "https://app.example/_next/static/chunks/app/page.js" = "app/page.js" ∧
    normalizeFileName "https://cdn.example/vendor/react.js" = "/vendor/react.js" := by
  decide

/-- C7: in development mode the stack provider is consulted exactly once
regardless of the supplied label, a usable frame at depth 3 makes the
result `frameLocation` of that frame (which does not depend on the label),
and a frame with no line number composes as `"<normalized file>" ++ ":" ++
"?"`. -/
theorem dev_always_introspects (fromArg : Option String)
    (stack : Except Unit (List StackFrame)) :
    (getCallerLocation true fromArg stack).stackCalls = 1 ∧
    (∀ frames fr, stack = Except.ok frames → frames[3]? = some fr →
      (getCallerLocation true fromArg stack).location = frameLocation fr) ∧
    (∀ f, f ≠ "" →
      frameLocation { fileName := some f, lineNumber := none } =
        normalizeFileName f ++ ":" ++ "?") := by
  refine ⟨?_, ?_, ?_⟩
  · rcases stack with e | fs
    · simp [getCallerLocation]
    · cases h3 : fs[3]? <;> simp [getCallerLocation, h3]
  · intro frames fr hs hfr
    subst hs
    simp [getCallerLocation, hfr]
  · intro f hf
    simp [frameLocation, lineString, hf]

/-- Witness for `dev_always_introspects`: a concrete four-frame stack in
development mode with a label supplied, plus a frame without a line
number. -/
theorem dev_always_introspects_witness :
    (getCallerLocation true (some "label")
      (Except.ok [⟨none, none⟩, ⟨none, none⟩, ⟨none, none⟩,
        ⟨some "file:///a/src/b.ts", some 7⟩])).stackCalls = 1 ∧
    (getCallerLocation true (some "label")
      (Except.ok [⟨none, none⟩, ⟨none, none⟩, ⟨none, none⟩,
        ⟨some "file:///a/src/b.ts", some 7⟩])).location =
      frameLocation ⟨some "file:///a/src/b.ts", some 7⟩ ∧
    frameLocation ⟨some "x.ts", none⟩ = normalizeFileName "x.ts" ++ ":" ++ "?" := by
  obtain ⟨h1, h2, h3⟩ := dev_always_introspects (some "label")
    (Except.ok [⟨none, none⟩, ⟨none, none⟩, ⟨none, none⟩,
      ⟨some "file:///a/src/b.ts", some 7⟩])
  exact ⟨h1, h2 _ _ rfl rfl, h3 "x.ts" (by decide)⟩

/-- C8: each of the five named levels routes to its identically named
console channel, any level string outside that set routes to the default
channel `console.log` (including the extra `"log"` key, which is bound to
that same primitive), and with a non-empty label the emitted line is
`"[LEVEL] [label] message"` with the level upper-cased. -/
theorem console_dispatch (level message : String) (fromArg : Option String) :
    consoleMap "trace" = Channel.trace ∧
    consoleMap "debug" = Channel.debug ∧
    consoleMap "info" = Channel.info ∧
    consoleMap "warn" = Channel.warn ∧
    consoleMap "error" = Channel.error ∧
    (level ∉ (["trace", "debug", "info", "warn", "error"] : List String) →
      consoleMap level = Channel.log) ∧
    (∀ l, fromArg = some l → l ≠ "" →
      consoleLine level message fromArg =
        "[" ++ toUpperString level ++ "] " ++ ("[" ++ l ++ "]") ++ " " ++ message) := by
  refine ⟨rfl, rfl, rfl, rfl, rfl, ?_, ?_⟩
  · intro hmem
    unfold consoleMap
    split_ifs <;> simp_all
  · intro l hl hne
    subst hl
    simp [consoleLine, labelSegment, hne]

/-- Witness for `console_dispatch`: the unknown level `"custom"` falls back
to the default channel, and the spec's end-to-end example line. -/
theorem console_dispatch_witness :
    consoleMap "custom" = Channel.log ∧
    consoleLine "info" "Saved" (some "profile-form") =
      "[" ++ toUpperString "info" ++ "] " ++ ("[" ++ "profile-form" ++ "]") ++ " " ++ "Saved" := by
  obtain ⟨_, _, _, _, _, h6, _⟩ := console_dispatch "custom" "m" none
  obtain ⟨_, _, _, _, _, _, h7⟩ := console_dispatch "info" "Saved" (some "profile-form")
  exact ⟨h6 (by decide), h7 "profile-form" rfl (by decide)⟩

/-- C9: the settings object submitted to `init_logger_cmd` is a pure field
renaming of the internal record — `logType`, `maxFileSize`,
`consoleLevel`, `fileLevel` pass through unchanged under their snake_case
names, an absent `logPath` becomes `none` (`null`), and a present non-empty
path passes through under `log_path`. -/
theorem settings_field_renaming (s : LogSettings) :
    (toBackendSettings s).log_type = s.logType ∧
    (toBackendSettings s).max_file_size = s.maxFileSize ∧
    (toBackendSettings s).console_level = s.consoleLevel ∧
    (toBackendSettings s).file_level = s.fileLevel ∧
    (s.logPath = none → (toBackendSettings s).log_path = none) ∧
    (∀ p, s.logPath = some p → p ≠ "" → (toBackendSettings s).log_path = some p) := by
  refine ⟨rfl, rfl, rfl, rfl, ?_, ?_⟩
  · intro h
    simp [toBackendSettings, h]
  · intro p hp hne
    simp [toBackendSettings, hp, hne]

/-- Witness for `settings_field_renaming` at a concrete settings record,
with a present path and with an absent one. -/
theorem settings_field_renaming_witness :
    (toBackendSettings
        { logPath := some "/var/log/app", logType := "file",
          maxFileSize := 1048576, consoleLevel := "info", fileLevel := "debug" }).log_path =
      some "/var/log/app" ∧
    (toBackendSettings
        { logPath := none, logType := "file",
          maxFileSize := 1048576, consoleLevel := "info", fileLevel := "debug" }).log_path = none :=
  ⟨(settings_field_renaming _).2.2.2.2.2 "/var/log/app" rfl (by decide),
   (settings_field_renaming _).2.2.2.2.1 rfl⟩

/-- C10: an empty-string explicit label behaves exactly like an absent one:
the resolver computes the same result for `some ""` as for `none` in every
mode and for every stack outcome; in production mode it does not trigger
the short-circuit and the fallback result is `"unknown"`; and the console
line's label segment is empty, so the bracket is omitted. -/
theorem empty_label_like_absent (isDev : Bool) (stack : Except Unit (List StackFrame))
    (level message : String) :
    getCallerLocation isDev (some "") stack = getCallerLocation isDev none stack ∧
    (getCallerLocation false (some "") stack).location = "unknown" ∧
    (getCallerLocation false (some "") stack).stackCalls = 0 ∧
    labelSegment (some "") = labelSegment none ∧
    consoleLine level message (some "") = consoleLine level message none := by
  refine ⟨?_, ?_, ?_, rfl, rfl⟩
  · cases isDev with
    | false => rfl
    | true =>
      rcases stack with e | frames
      · rfl
      · cases h3 : frames[3]? <;> simp [getCallerLocation, isTruthy, fallbackLabel, h3]
  · rfl
  · rfl
